import Mathlib

/-!
Shallow embedding of the `eda-cli` repository (homeworks/HW04/eda-cli).

The repository ships `src/eda_cli/api.py`, `src/eda_cli/cli.py` and
`tests/test_core.py`; the statistical core `src/eda_cli/core.py` and the
plotting module `src/eda_cli/viz.py` are not present in the source tree, so
the core operations (`summarize_dataset`, `missing_table`,
`compute_quality_flags`, `correlation_matrix`, `top_categories`) are modelled
from the specification, as marked on each definition.  The HTTP handlers
(`api.py`) and the CLI commands (`cli.py`) are embedded from their source.

Numbers are embedded as rationals.  Sample standard deviation would need a
square root, so `ColumnSummary` stores the sample variance `var` instead;
every comparison the code makes against a std threshold `t` is embedded as
the equivalent comparison of `var` against `t^2` (std = sqrt var and both
sides are nonnegative).  Pearson correlation values live in `ℝ` (they divide
by a square root); an undefined correlation (pandas `NaN`, zero variance or
no complete rows) is `none`.
-/

namespace EdaCli

/-- A column of the in-memory tabular structure: a name together with an
ordered sequence of optional values of a single inferred type.  `none` is a
null/missing entry. -/
inductive Column where
  | numeric (name : String) (vals : List (Option ℚ))
  | categorical (name : String) (vals : List (Option String))
deriving DecidableEq

def Column.name : Column → String
  | .numeric n _ => n
  | .categorical n _ => n

/-- Row count of a column (nulls included). -/
def Column.size : Column → ℕ
  | .numeric _ v => v.length
  | .categorical _ v => v.length

def Column.is_numeric : Column → Bool
  | .numeric _ _ => true
  | .categorical _ _ => false

/-- Non-null values of a numeric column. -/
def Column.numVals : Column → List ℚ
  | .numeric _ v => v.filterMap id
  | .categorical _ _ => []

/-- Non-null values of a categorical column. -/
def Column.catVals : Column → List String
  | .numeric _ _ => []
  | .categorical _ v => v.filterMap id

/-- Count of non-null values. -/
def Column.non_null : Column → ℕ
  | .numeric _ v => (v.filterMap id).length
  | .categorical _ v => (v.filterMap id).length

/-- Count of distinct non-null values. -/
def Column.unique : Column → ℕ
  | .numeric _ v => (v.filterMap id).dedup.length
  | .categorical _ v => (v.filterMap id).dedup.length

/-- A dataset: an ordered sequence of named columns (a pandas `DataFrame`).
All columns of a well-formed dataset share the same row count. -/
structure Dataset where
  cols : List Column
deriving DecidableEq

/-- Row count of the dataset (length of the shared index; `0` when there are
no columns). -/
def Dataset.n_rows (ds : Dataset) : ℕ :=
  match ds.cols with
  | [] => 0
  | c :: _ => c.size

def Dataset.n_cols (ds : Dataset) : ℕ := ds.cols.length

/-- Pandas `DataFrame.empty`: true when either axis has length 0. -/
def Dataset.isEmptyDf (ds : Dataset) : Bool :=
  ds.n_rows == 0 || ds.n_cols == 0

/-- Per-column summary.  Modelled from the spec: `core.py` is absent from the
source tree; spec section 4.1 gives {name, is_numeric, non_null count, unique
count, mean/std (numeric only, nullable)}.  `var` is the sample variance,
standing for `std = sqrt var`. -/
structure ColumnSummary where
  name : String
  is_numeric : Bool
  non_null : ℕ
  unique : ℕ
  mean : Option ℚ
  var : Option ℚ
deriving DecidableEq

/-- Dataset-level summary (spec section 3). -/
structure DatasetSummary where
  n_rows : ℕ
  n_cols : ℕ
  columns : List ColumnSummary
deriving DecidableEq

/-- Mean of a list of rationals (none when empty). -/
def meanOf (xs : List ℚ) : Option ℚ :=
  if xs.length = 0 then none else some (xs.sum / (xs.length : ℚ))

/-- Sample variance of a list of rationals: `Σ (x - mean)^2 / (n - 1)`,
`none` when fewer than 2 values (spec 4.1: mean/std undefined when fewer
than 2 non-null values). -/
def varOf (xs : List ℚ) : Option ℚ :=
  if xs.length < 2 then none
  else
    let m := xs.sum / (xs.length : ℚ)
    some ((xs.map (fun x => (x - m) ^ 2)).sum / ((xs.length : ℚ) - 1))

/-- Modelled from the spec (4.1 Summarizer): per-column statistics. -/
def summarize_column (c : Column) : ColumnSummary :=
  { name := c.name
    is_numeric := c.is_numeric
    non_null := c.non_null
    unique := c.unique
    mean := if c.is_numeric then meanOf c.numVals else none
    var := if c.is_numeric then varOf c.numVals else none }

/-- Modelled from the spec (4.1 Summarizer): `summarize_dataset` of the
absent `core.py`. -/
def summarize_dataset (ds : Dataset) : DatasetSummary :=
  { n_rows := ds.n_rows
    n_cols := ds.n_cols
    columns := ds.cols.map summarize_column }

/-- One row of the missing-value table. -/
structure MissingRow where
  name : String
  missing_count : ℕ
  missing_share : ℚ
deriving DecidableEq

/-- Modelled from the spec (4.2 Missing-value analyzer): `missing_table` of
the absent `core.py`.  All columns included; empty table when `n_rows = 0`. -/
def missing_table (ds : Dataset) : List MissingRow :=
  if ds.n_rows = 0 then []
  else
    ds.cols.map fun c =>
      { name := c.name
        missing_count := c.size - c.non_null
        missing_share := ((c.size - c.non_null : ℕ) : ℚ) / (ds.n_rows : ℚ) }

/-- Configurable thresholds of the quality scorer (spec 4.5: row-count floor,
column-count ceiling, missing-share ceiling; the defaults of the absent
`core.py` are unknown, so they stay parameters of the model). -/
structure Thresholds where
  row_floor : ℕ
  col_ceil : ℕ
  missing_ceil : ℚ
deriving DecidableEq

/-- Squared low-variation threshold: the spec checks `std < 1e-6`, embedded
as `var < (1e-6)^2`. -/
def low_var_sq : ℚ := 1 / 1000000000000

/-- High-cardinality threshold (spec: 50 uniques). -/
def high_card_threshold : ℕ := 50

/-- Quality flags (spec section 3). -/
structure QualityFlags where
  quality_score : ℚ
  max_missing_share : ℚ
  too_few_rows : Bool
  too_many_columns : Bool
  too_many_missing : Bool
  has_constant_columns : Bool
  has_high_cardinality_categoricals : Bool
  has_numeric_columns_with_low_variation : Bool
deriving DecidableEq

/-- The six boolean flags, in spec order. -/
def QualityFlags.six (f : QualityFlags) : List Bool :=
  [f.too_few_rows, f.too_many_columns, f.too_many_missing,
   f.has_constant_columns, f.has_high_cardinality_categoricals,
   f.has_numeric_columns_with_low_variation]

/-- Fixed per-flag penalty: equal weighting across the six flags. -/
def flag_penalty : ℚ := 1 / 6

/-- Maximum `missing_share` over the missing table (0 when empty). -/
def maxMissingShare (missing : List MissingRow) : ℚ :=
  missing.foldl (fun m r => max m r.missing_share) 0

/-- The optional variance is known and below a threshold (`std is not None
and std < t`, embedded on variances). -/
def varBelow (o : Option ℚ) (t : ℚ) : Bool :=
  match o with
  | some v => decide (v < t)
  | none => false

/-- Low-variation test on a column summary: numeric, more than one non-null
value and `std < 1e-6` (embedded as `var < (1e-6)^2`). -/
def ColumnSummary.low_variation (c : ColumnSummary) : Bool :=
  c.is_numeric && decide (1 < c.non_null) && varBelow c.var low_var_sq

/-- Modelled from the spec (4.5 Quality scorer): `compute_quality_flags` of
the absent `core.py`.  Six independent boolean checks; the score starts at
1.0, loses `flag_penalty` per triggered flag and is floored at 0.0. -/
def compute_quality_flags (summary : DatasetSummary) (missing : List MissingRow)
    (th : Thresholds) : QualityFlags :=
  let mm := maxMissingShare missing
  let f : QualityFlags :=
    { quality_score := 0
      max_missing_share := mm
      too_few_rows := decide (summary.n_rows < th.row_floor)
      too_many_columns := decide (th.col_ceil < summary.n_cols)
      too_many_missing := decide (th.missing_ceil < mm)
      has_constant_columns :=
        summary.columns.any fun c => decide (0 < c.non_null) && (c.unique == 1)
      has_high_cardinality_categoricals :=
        summary.columns.any fun c =>
          !c.is_numeric && decide (0 < c.non_null) &&
            decide (high_card_threshold < c.unique)
      has_numeric_columns_with_low_variation :=
        summary.columns.any fun c => c.low_variation }
  { f with quality_score := max 0 (1 - flag_penalty * (f.six.count true : ℚ)) }

/-! ### Top categories (spec 4.4 Categorical analyzer) -/

/-- Increment the count of `v` in an association list of counts, appending
`(v, 1)` at the end when `v` is new — so keys stay in first-seen order. -/
def bump : List (String × ℕ) → String → List (String × ℕ)
  | [], v => [(v, 1)]
  | (k, c) :: rest, v =>
    if k == v then (k, c + 1) :: rest else (k, c) :: bump rest v

/-- Frequency of each value of a column, keys in first-seen order. -/
def countsOf (vals : List String) : List (String × ℕ) :=
  vals.foldl bump []

/-- Ordering used to rank indexed count entries `(first-seen index, (value,
count))`: larger count first, ties by smaller first-seen index. -/
def catRel (a b : ℕ × (String × ℕ)) : Prop :=
  b.2.2 < a.2.2 ∨ (a.2.2 = b.2.2 ∧ a.1 ≤ b.1)

instance : DecidableRel catRel := fun a b => by
  unfold catRel; infer_instance

instance : IsTotal (ℕ × (String × ℕ)) catRel :=
  ⟨by intro a b; unfold catRel; omega⟩

instance : IsTrans (ℕ × (String × ℕ)) catRel :=
  ⟨by intro a b c; unfold catRel; omega⟩

/-- Count entries of a column tagged with their first-seen index and sorted:
descending frequency, ties broken by first-seen order. -/
def sorted_counts (vals : List String) : List (ℕ × (String × ℕ)) :=
  List.insertionSort catRel (countsOf vals).enum

/-- Top-`k` `(value, frequency)` rows for one categorical column. -/
def top_categories_col (vals : List String) (k : ℕ) : List (String × ℕ) :=
  ((sorted_counts vals).take k).map (fun p => p.2)

/-- Categorical columns of a dataset as `(name, non-null values)` pairs. -/
def catColumns (ds : Dataset) : List (String × List String) :=
  ds.cols.filterMap fun c =>
    match c with
    | .categorical n v => some (n, v.filterMap id)
    | .numeric _ _ => none

/-- Optional cap on how many categorical columns are analyzed. -/
def applyCap (max_columns : Option ℕ) (l : List (String × List String)) :
    List (String × List String) :=
  match max_columns with
  | none => l
  | some m => l.take m

/-- Modelled from the spec (4.4 Categorical analyzer): `top_categories` of
the absent `core.py`.  For each non-numeric column (up to `max_columns`),
the `top_k` most frequent non-null values by descending count; columns with
zero non-null values are omitted. -/
def top_categories (ds : Dataset) (max_columns : Option ℕ) (top_k : ℕ) :
    List (String × List (String × ℕ)) :=
  ((applyCap max_columns (catColumns ds)).filter fun p => !p.2.isEmpty).map
    fun p => (p.1, top_categories_col p.2 top_k)

/-! ### Correlation (spec 4.3 Correlation analyzer) -/

/-- Pairwise-complete rows of two numeric columns: positions where both
values are non-null (pairwise null exclusion). -/
def pairRows (xs ys : List (Option ℚ)) : List (ℚ × ℚ) :=
  (xs.zip ys).filterMap fun p =>
    match p.1, p.2 with
    | some a, some b => some (a, b)
    | _, _ => none

/-- Mean of the first components. -/
def meanFst (l : List (ℚ × ℚ)) : ℚ :=
  (l.map Prod.fst).sum / (l.length : ℚ)

/-- Mean of the second components. -/
def meanSnd (l : List (ℚ × ℚ)) : ℚ :=
  (l.map Prod.snd).sum / (l.length : ℚ)

/-- Sum of squared deviations of the first components. -/
def sxx (l : List (ℚ × ℚ)) : ℚ :=
  (l.map fun p => (p.1 - meanFst l) ^ 2).sum

/-- Sum of squared deviations of the second components. -/
def syy (l : List (ℚ × ℚ)) : ℚ :=
  (l.map fun p => (p.2 - meanSnd l) ^ 2).sum

/-- Sum of products of deviations. -/
def sxy (l : List (ℚ × ℚ)) : ℚ :=
  (l.map fun p => (p.1 - meanFst l) * (p.2 - meanSnd l)).sum

/-- Pearson correlation coefficient of a list of paired observations:
`Sxy / sqrt (Sxx * Syy)` (the sample-size normalisations cancel).  `none`
models pandas `NaN`: no complete rows, or zero variance on either side. -/
noncomputable def pearsonPairs (l : List (ℚ × ℚ)) : Option ℝ :=
  if l.length = 0 then none
  else if sxx l = 0 ∨ syy l = 0 then none
  else some ((sxy l : ℝ) / Real.sqrt ((sxx l * syy l : ℚ) : ℝ))

/-- Value lists of the numeric columns, in dataset order. -/
def numericCols (ds : Dataset) : List (List (Option ℚ)) :=
  ds.cols.filterMap fun c =>
    match c with
    | .numeric _ v => some v
    | .categorical _ _ => none

/-- Pearson correlation of two numeric columns over their pairwise-complete
rows. -/
noncomputable def pearsonCols (xs ys : List (Option ℚ)) : Option ℝ :=
  pearsonPairs (pairRows xs ys)

/-- Modelled from the spec (4.3 Correlation analyzer): `correlation_matrix`
of the absent `core.py`.  Empty when fewer than 2 numeric columns; otherwise
the pairwise Pearson matrix over the numeric columns, nulls pairwise
excluded per pair. -/
noncomputable def correlation_matrix (ds : Dataset) : List (List (Option ℝ)) :=
  let nc := numericCols ds
  if nc.length < 2 then []
  else nc.map fun a => nc.map fun b => pearsonCols a b

/-- Entry `(i, j)` of a correlation matrix; `none` when out of range. -/
def matrixEntry (m : List (List (Option ℝ))) (i j : ℕ) : Option ℝ :=
  ((m.getD i []).getD j none)

/-! ### HTTP API (`src/eda_cli/api.py`) -/

/-- A JSON cell value supported by `pd.DataFrame` construction. -/
inductive Cell where
  | num (q : ℚ)
  | str (s : String)
  | null
deriving DecidableEq

/-- Dtype inference of `pd.DataFrame` on one column of JSON values: all
non-null values numeric gives a numeric column, anything else an object
(categorical) column whose numbers are kept as their rendered text. -/
def infer_column (name : String) (cells : List Cell) : Column :=
  if cells.all fun c =>
      match c with
      | .num _ => true
      | .null => true
      | .str _ => false
  then
    .numeric name (cells.map fun c =>
      match c with
      | .num q => some q
      | _ => none)
  else
    .categorical name (cells.map fun c =>
      match c with
      | .str s => some s
      | .num q => some (toString q)
      | .null => none)

/-- All columns of a request share one length (else `pd.DataFrame` raises). -/
def sameLengths : List (String × List Cell) → Bool
  | [] => true
  | (_, c0) :: rest => rest.all fun p => p.2.length == c0.length

/-- Building `pd.DataFrame(data["columns"])` in the `/quality` handler: the
request body is `none` when it has no `"columns"` key (`KeyError`), and
construction raises on unequal column lengths.  Any raise is an `error`. -/
def build_dataframe (body : Option (List (String × List Cell))) :
    Except String Dataset :=
  match body with
  | none => .error "KeyError: columns"
  | some cols =>
    if sameLengths cols then
      .ok ⟨cols.map fun p => infer_column p.1 p.2⟩
    else .error "All arrays must be of the same length"

/-- An HTTP error response (`HTTPException(status_code, detail)`). -/
structure HttpError where
  status : ℕ
  detail : String
deriving DecidableEq

/-- Outcome of a quality endpoint: an `HTTPException` or the flags payload. -/
def QualityResult := Except HttpError QualityFlags

/-- The response is a 400 error and carries no `QualityFlags` payload. -/
def resp_is_400 (r : QualityResult) : Prop :=
  match r with
  | .error e => e.status = 400
  | .ok _ => False

/-- Handler of `POST /quality` (`api.py`, `quality_from_dataframe`):
build the DataFrame (400 on any raise), 400 on `df.empty`, else the quality
flags computed from the summary and the missing table. -/
def quality_from_dataframe (body : Option (List (String × List Cell)))
    (th : Thresholds) : QualityResult :=
  match build_dataframe body with
  | .error e => .error ⟨400, "Invalid input data: " ++ e⟩
  | .ok df =>
    if df.isEmptyDf then .error ⟨400, "Empty dataset"⟩
    else .ok (compute_quality_flags (summarize_dataset df) (missing_table df) th)

/-- Python `str.endswith`: the characters of `pat` are the trailing
characters of `s`. -/
def suffixMatch (s pat : String) : Bool :=
  decide (pat.data.length ≤ s.data.length) &&
    (s.data.drop (s.data.length - pat.data.length) == pat.data)

/-- Handler of `POST /quality-from-csv` (`api.py`, `quality_from_csv`):
400 unless the filename ends in `.csv` or `.txt`; reading and parsing the
upload is abstracted as `parsed` (an `error` when `file.read()` or
`pd.read_csv` raises, mapped to 400); 400 on `df.empty`; else the flags. -/
def quality_from_csv (filename : String) (parsed : Except String Dataset)
    (th : Thresholds) : QualityResult :=
  if !(suffixMatch filename ".csv" || suffixMatch filename ".txt") then
    .error ⟨400, "Only CSV files are allowed"⟩
  else
    match parsed with
    | .error e => .error ⟨400, "Failed to parse CSV: " ++ e⟩
    | .ok df =>
      if df.isEmptyDf then .error ⟨400, "Empty dataset"⟩
      else .ok (compute_quality_flags (summarize_dataset df) (missing_table df) th)

/-! ### CLI (`src/eda_cli/cli.py`) -/

/-- A JSON value, for the payload written to `summary.json`. -/
inductive Json where
  | num (q : ℚ)
  | bool (b : Bool)
  | str (s : String)
  | arr (l : List Json)
  | obj (l : List (String × Json))

/-- Python `round` to the nearest integer, ties to even. -/
def bankersRound (q : ℚ) : ℤ :=
  if q - ⌊q⌋ < 1 / 2 then ⌊q⌋
  else if 1 / 2 < q - ⌊q⌋ then ⌊q⌋ + 1
  else if ⌊q⌋ % 2 = 0 then ⌊q⌋ else ⌊q⌋ + 1

/-- Python `round(x, 4)`. -/
def round4 (q : ℚ) : ℚ :=
  (bankersRound (q * 10000) : ℚ) / 10000

/-- Columns whose missing share reaches `min_missing_share`
(`cli.py` line 106: the filter on `missing_df`, `[]` when it is empty). -/
def problematic_missing_cols (missing : List MissingRow) (min_missing_share : ℚ) :
    List String :=
  if missing.isEmpty then []
  else (missing.filter fun r => decide (min_missing_share ≤ r.missing_share)).map
    fun r => r.name

/-- Constant columns (`cli.py` line 116). -/
def constant_cols (summary : DatasetSummary) : List String :=
  (summary.columns.filter fun c => c.unique == 1 && decide (0 < c.non_null)).map
    fun c => c.name

/-- High-cardinality categorical columns (`cli.py` lines 120-123). -/
def high_card_cols (summary : DatasetSummary) : List String :=
  (summary.columns.filter fun c =>
    !c.is_numeric && decide (50 < c.unique) && decide (0 < c.non_null)).map
    fun c => c.name

/-- Numeric columns with low variation (`cli.py` lines 127-130: `std` known
and below `1e-6`, more than one non-null value; `std < 1e-6` is embedded as
`var < (1e-6)^2`). -/
def low_var_cols (summary : DatasetSummary) : List String :=
  (summary.columns.filter fun c =>
    c.is_numeric && varBelow c.var low_var_sq && decide (1 < c.non_null)).map
    fun c => c.name

/-- All problematic columns (`cli.py` lines 113-133): the union of the four
criteria as a sorted set. -/
def problematic_columns (summary : DatasetSummary) (missing : List MissingRow)
    (min_missing_share : ℚ) : List String :=
  List.insertionSort (· ≤ ·)
    ((problematic_missing_cols missing min_missing_share ++ constant_cols summary
      ++ high_card_cols summary ++ low_var_cols summary).dedup)

/-- The items of the quality-flags dict returned by the core, in spec order. -/
def flags_items (qf : QualityFlags) : List (String × Json) :=
  [("quality_score", .num qf.quality_score),
   ("too_few_rows", .bool qf.too_few_rows),
   ("too_many_columns", .bool qf.too_many_columns),
   ("too_many_missing", .bool qf.too_many_missing),
   ("has_constant_columns", .bool qf.has_constant_columns),
   ("has_high_cardinality_categoricals", .bool qf.has_high_cardinality_categoricals),
   ("has_numeric_columns_with_low_variation",
    .bool qf.has_numeric_columns_with_low_variation),
   ("max_missing_share", .num qf.max_missing_share)]

/-- The `"flags"` object of `summary.json` (`cli.py` lines 152-155): every
quality-flags item whose key is not `quality_score` or `max_missing_share`. -/
def json_flags (qf : QualityFlags) : List (String × Json) :=
  (flags_items qf).filter fun kv =>
    !(kv.1 == "quality_score" || kv.1 == "max_missing_share")

/-- The `summary.json` payload (`cli.py` lines 147-156). -/
def summary_json (summary : DatasetSummary) (qf : QualityFlags)
    (probs : List String) : List (String × Json) :=
  [("n_rows", .num (summary.n_rows : ℚ)),
   ("n_cols", .num (summary.n_cols : ℚ)),
   ("quality_score", .num (round4 qf.quality_score)),
   ("problematic_columns", .arr (probs.map .str)),
   ("flags", .obj (json_flags qf))]

/-- File and directory names the `report` command writes for a loaded
dataset (`cli.py` lines 136-158, 161, 209-211): `missing.csv` and
`correlation.csv` only when the corresponding table is non-empty,
`summary.json` only under `--json-summary`.  The image files come from the
absent `viz.py` and are modelled from the spec ("image files"). -/
noncomputable def report_files (ds : Dataset) (json_summary : Bool) :
    List String :=
  ["summary.csv"]
    ++ (if (missing_table ds).isEmpty then [] else ["missing.csv"])
    ++ (if (correlation_matrix ds).isEmpty then [] else ["correlation.csv"])
    ++ ["top_categories/"]
    ++ (if json_summary then ["summary.json"] else [])
    ++ ["report.md", "missing_matrix.png", "correlation_heatmap.png"]

/-- One observable effect of a CLI command. -/
inductive CliEffect where
  | mkdir_out
  | analyze (name : String)
  | write (name : String)
  | echo
deriving DecidableEq

/-- `_load_csv` of `cli.py`: `BadParameter` when the path does not exist,
`BadParameter` when `pd.read_csv` raises (parse outcome abstracted as
`parsed`), else the dataset. -/
def load_csv (path_exists : Bool) (parsed : Except String Dataset) :
    Except String Dataset :=
  if !path_exists then .error "file not found"
  else
    match parsed with
    | .error e => .error ("failed to read CSV: " ++ e)
    | .ok ds => .ok ds

/-- The `overview` command: load, then summarize and print.  Returns the
effect trace and the outcome (`error` is a raised `BadParameter`). -/
def overview_cmd (path_exists : Bool) (parsed : Except String Dataset) :
    List CliEffect × Except String Unit :=
  match load_csv path_exists parsed with
  | .error e => ([], .error e)
  | .ok _ => ([.analyze "summarize_dataset", .echo], .ok ())

/-- The `report` command: the output directory is created first
(`cli.py` line 90), then the CSV is loaded; on a load failure the raised
`BadParameter` propagates and nothing else runs.  On success every analyzer
runs and the report files are written. -/
noncomputable def report_cmd (path_exists : Bool)
    (parsed : Except String Dataset) (json_summary : Bool) :
    List CliEffect × Except String Unit :=
  match load_csv path_exists parsed with
  | .error e => ([.mkdir_out], .error e)
  | .ok ds =>
    ([.mkdir_out, .analyze "summarize_dataset", .analyze "missing_table",
      .analyze "correlation_matrix", .analyze "top_categories",
      .analyze "compute_quality_flags"]
      ++ (report_files ds json_summary).map .write ++ [.echo], .ok ())

/-! ### Concrete inputs used by witnesses -/

/-- The sample dataset of `tests/test_core.py` (`_sample_df`). -/
def sample_df : Dataset :=
  ⟨[.numeric "age" [some 10, some 20, some 30, none],
    .numeric "height" [some 140, some 150, some 160, some 170],
    .categorical "city" [some "A", some "B", some "A", none]]⟩

/-- Arbitrary thresholds used to instantiate witnesses. -/
def witnessTh : Thresholds := ⟨10, 50, 1 / 2⟩

/-- A dataset with one column and zero rows. -/
def empty_rows_df : Dataset := ⟨[.numeric "a" []]⟩

/-! ### Claim theorems -/

/-- C2: for every `DatasetSummary` and missing table, `compute_quality_flags`
returns a `quality_score` equal to 1.0 minus the fixed equal per-flag penalty
(1/6) for each of the six triggered boolean flags, clamped below at 0.0, and
the score always lies in [0.0, 1.0]; the function is a pure function of its
inputs, hence deterministic. -/
theorem compute_quality_flags_score_spec (s : DatasetSummary)
    (m : List MissingRow) (th : Thresholds) :
    (compute_quality_flags s m th).quality_score =
      max 0 (1 - flag_penalty *
        (((compute_quality_flags s m th).six.count true : ℕ) : ℚ)) ∧
    0 ≤ (compute_quality_flags s m th).quality_score ∧
    (compute_quality_flags s m th).quality_score ≤ 1 := by
  have key : ∀ n : ℕ, max 0 (1 - flag_penalty * (n : ℚ)) ≤ 1 := by
    intro n
    apply max_le (by norm_num)
    have h : (0 : ℚ) ≤ flag_penalty * (n : ℚ) :=
      mul_nonneg (by norm_num [flag_penalty]) (by positivity)
    linarith
  have hq : (compute_quality_flags s m th).quality_score =
      max 0 (1 - flag_penalty *
        (((compute_quality_flags s m th).six.count true : ℕ) : ℚ)) := rfl
  exact ⟨hq, hq ▸ le_max_left _ _, hq ▸ key _⟩

/-- C9: any exception raised while building the DataFrame from the body of
`POST /quality` — missing `"columns"` key, unequal column lengths — yields
HTTP 400 with a message, never an unhandled error at that stage. -/
theorem quality_build_error_400 (body : Option (List (String × List Cell)))
    (th : Thresholds) (msg : String)
    (h : build_dataframe body = .error msg) :
    quality_from_dataframe body th = .error ⟨400, "Invalid input data: " ++ msg⟩ := by
  unfold quality_from_dataframe
  rw [h]

/-- Witness for C9: a body with no `"columns"` key is answered with 400. -/
theorem quality_build_error_400_witness :
    quality_from_dataframe none witnessTh =
      .error ⟨400, "Invalid input data: " ++ "KeyError: columns"⟩ :=
  quality_build_error_400 none witnessTh "KeyError: columns" rfl

/-- C1: a request to `POST /quality` or `POST /quality-from-csv` whose input
parses into a dataset with 0 rows is answered with HTTP 400 and no
`QualityFlags` payload. -/
theorem quality_endpoints_reject_empty
    (body : Option (List (String × List Cell))) (th : Thresholds) (df : Dataset)
    (hbuild : build_dataframe body = .ok df) (hrows : df.n_rows = 0)
    (fn : String) (parsed : Except String Dataset) (th2 : Thresholds)
    (df2 : Dataset) (hparse : parsed = .ok df2) (hrows2 : df2.n_rows = 0) :
    resp_is_400 (quality_from_dataframe body th) ∧
    resp_is_400 (quality_from_csv fn parsed th2) := by
  have hemp : df.isEmptyDf = true := by simp [Dataset.isEmptyDf, hrows]
  have hemp2 : df2.isEmptyDf = true := by simp [Dataset.isEmptyDf, hrows2]
  constructor
  · unfold quality_from_dataframe
    rw [hbuild]
    simp only [hemp, if_true]
    simp [resp_is_400]
  · unfold quality_from_csv
    subst hparse
    by_cases hext : (suffixMatch fn ".csv" || suffixMatch fn ".txt") = true
    · simp only [hext, Bool.not_true, Bool.false_eq_true, if_false, hemp2,
        if_true]
      simp [resp_is_400]
    · simp only [Bool.not_eq_true] at hext
      simp only [hext, Bool.not_false, if_true]
      simp [resp_is_400]

/-- Witness for C1: a one-column, zero-row body and a zero-row CSV are both
rejected with 400. -/
theorem quality_endpoints_reject_empty_witness :
    resp_is_400 (quality_from_dataframe (some [("a", [])]) witnessTh) ∧
    resp_is_400 (quality_from_csv "data.csv" (.ok empty_rows_df) witnessTh) :=
  quality_endpoints_reject_empty (some [("a", [])]) witnessTh
    ⟨[infer_column "a" []]⟩ rfl rfl
    "data.csv" (.ok empty_rows_df) witnessTh empty_rows_df rfl rfl

/-- C4: `POST /quality-from-csv` answers 400 when the filename does not end
in `.csv` or `.txt`; 400 whenever reading/parsing the upload raises; and only
an upload passing the extension check that parses into a non-empty dataset is
answered with the `QualityFlags` payload. -/
theorem quality_from_csv_spec (fn : String) (parsed : Except String Dataset)
    (th : Thresholds) :
    (¬(suffixMatch fn ".csv" = true ∨ suffixMatch fn ".txt" = true) →
      quality_from_csv fn parsed th = .error ⟨400, "Only CSV files are allowed"⟩) ∧
    (∀ msg, parsed = .error msg → resp_is_400 (quality_from_csv fn parsed th)) ∧
    (∀ df, parsed = .ok df →
      (suffixMatch fn ".csv" = true ∨ suffixMatch fn ".txt" = true) →
      df.isEmptyDf = false →
      quality_from_csv fn parsed th =
        .ok (compute_quality_flags (summarize_dataset df) (missing_table df) th)) ∧
    (∀ qf, quality_from_csv fn parsed th = .ok qf →
      (suffixMatch fn ".csv" = true ∨ suffixMatch fn ".txt" = true) ∧
      ∃ df, parsed = .ok df ∧ df.isEmptyDf = false) := by
  refine ⟨?_, ?_, ?_, ?_⟩
  · intro hext
    unfold quality_from_csv
    have hor : (suffixMatch fn ".csv" || suffixMatch fn ".txt") = false := by
      rcases h1 : suffixMatch fn ".csv" <;> rcases h2 : suffixMatch fn ".txt" <;>
        simp_all
    rw [hor]
    rfl
  · intro msg hmsg
    unfold quality_from_csv
    subst hmsg
    by_cases hext : (suffixMatch fn ".csv" || suffixMatch fn ".txt") = true
    · simp only [hext, Bool.not_true, Bool.false_eq_true, if_false]
      simp [resp_is_400]
    · simp only [Bool.not_eq_true] at hext
      simp only [hext, Bool.not_false, if_true]
      simp [resp_is_400]
  · intro df hdf hext hne
    unfold quality_from_csv
    subst hdf
    have hor : (suffixMatch fn ".csv" || suffixMatch fn ".txt") = true := by
      rcases hext with h | h <;> simp [h]
    rw [hor]
    simp only [Bool.not_true, Bool.false_eq_true, if_false, hne,
      Bool.false_eq_true, if_false]
  · intro qf hok
    unfold quality_from_csv at hok
    by_cases hext : (suffixMatch fn ".csv" || suffixMatch fn ".txt") = true
    · rw [hext] at hok
      simp only [Bool.not_true, Bool.false_eq_true, if_false] at hok
      match hp : parsed with
      | .error e => simp at hok
      | .ok df =>
        have hok' : (if df.isEmptyDf = true then
            (Except.error ⟨400, "Empty dataset"⟩ : QualityResult)
          else .ok (compute_quality_flags (summarize_dataset df)
            (missing_table df) th)) = .ok qf := hok
        refine ⟨?_, df, rfl, ?_⟩
        · rcases Bool.or_eq_true_iff.mp hext with h | h
          · exact Or.inl h
          · exact Or.inr h
        · by_cases he : df.isEmptyDf = true
          · rw [he] at hok'
            simp at hok'
          · simpa using he
    · simp only [Bool.not_eq_true] at hext
      rw [hext] at hok
      simp at hok

/-- Witness for C4: a `.json` upload is rejected, a parse failure is a 400,
and a well-formed `.csv` upload of the sample dataset yields the flags. -/
theorem quality_from_csv_spec_witness :
    quality_from_csv "data.json" (.ok sample_df) witnessTh =
      .error ⟨400, "Only CSV files are allowed"⟩ ∧
    resp_is_400 (quality_from_csv "data.csv" (.error "boom") witnessTh) ∧
    quality_from_csv "data.csv" (.ok sample_df) witnessTh =
      .ok (compute_quality_flags (summarize_dataset sample_df)
        (missing_table sample_df) witnessTh) ∧
    ((suffixMatch "data.csv" ".csv" = true ∨ suffixMatch "data.csv" ".txt" = true) ∧
      ∃ df, (Except.ok sample_df : Except String Dataset) = .ok df ∧
        df.isEmptyDf = false) := by
  have h3 := (quality_from_csv_spec "data.csv" (.ok sample_df) witnessTh).2.2.1
    sample_df rfl (by decide) (by decide)
  exact ⟨(quality_from_csv_spec "data.json" (.ok sample_df) witnessTh).1 (by decide),
    (quality_from_csv_spec "data.csv" (.error "boom") witnessTh).2.1 "boom" rfl,
    h3,
    (quality_from_csv_spec "data.csv" (.ok sample_df) witnessTh).2.2.2 _ h3⟩

/-- C8: on the dataset {age: [10, 20, 30, None], height: [140, 150, 160,
170], city: ["A", "B", "A", None]}, the summary has 4 rows and 3 columns, the
missing table reports one missing value for "age", and the top categories of
"city" with `top_k = 2` have at most 2 rows and include "A". -/
theorem sample_dataset_scenario :
    (summarize_dataset sample_df).n_rows = 4 ∧
    (summarize_dataset sample_df).n_cols = 3 ∧
    ((missing_table sample_df).find? fun r => r.name == "age").map
      (fun r => r.missing_count) = some 1 ∧
    ∃ tbl, (top_categories sample_df (some 5) 2).lookup "city" = some tbl ∧
      tbl.length ≤ 2 ∧ "A" ∈ tbl.map Prod.fst := by
  refine ⟨by decide, by decide, by decide, [("A", 2), ("B", 1)], by decide,
    by decide, by decide⟩

/-- C5: when the input path does not exist or the CSV cannot be parsed, the
`overview` and `report` commands raise a parameter error immediately: no
analyzer runs and no file is written (the only prior effect of `report` is
creating the empty output directory). -/
theorem cli_load_failure_no_outputs (pe : Bool) (parsed : Except String Dataset)
    (js : Bool) (h : pe = false ∨ ∃ msg, parsed = .error msg) :
    (∃ e, overview_cmd pe parsed = ([], .error e)) ∧
    (∃ e, report_cmd pe parsed js = ([.mkdir_out], .error e)) := by
  have hload : ∃ e, load_csv pe parsed = .error e := by
    rcases h with h | ⟨msg, hmsg⟩
    · exact ⟨"file not found", by simp [load_csv, h]⟩
    · subst hmsg
      cases pe
      · exact ⟨"file not found", by simp [load_csv]⟩
      · exact ⟨"failed to read CSV: " ++ msg, by simp [load_csv]⟩
  obtain ⟨e, he⟩ := hload
  refine ⟨⟨e, ?_⟩, ⟨e, ?_⟩⟩
  · unfold overview_cmd
    rw [he]
  · unfold report_cmd
    rw [he]

/-- Witness for C5: a missing input path makes both commands fail with no
analysis and no files. -/
theorem cli_load_failure_no_outputs_witness :
    (∃ e, overview_cmd false (.ok sample_df) = ([], .error e)) ∧
    (∃ e, report_cmd false (.ok sample_df) true = ([.mkdir_out], .error e)) :=
  cli_load_failure_no_outputs false (.ok sample_df) true (Or.inl rfl)

/-! ### Helper lemmas (shared) -/

theorem list_isEmpty_false_iff {α : Type} (l : List α) :
    l.isEmpty = false ↔ l ≠ [] := by
  cases l <;> simp

theorem varBelow_true_iff (o : Option ℚ) (t : ℚ) :
    varBelow o t = true ↔ ∃ v, o = some v ∧ v < t := by
  cases o <;> simp [varBelow]

theorem mem_problematic_missing_cols (missing : List MissingRow) (ms : ℚ)
    (name : String) :
    name ∈ problematic_missing_cols missing ms ↔
      ∃ r ∈ missing, r.name = name ∧ ms ≤ r.missing_share := by
  unfold problematic_missing_cols
  cases missing with
  | nil => simp
  | cons r rest =>
    simp only [List.isEmpty_cons, Bool.false_eq_true, if_false, List.mem_map,
      List.mem_filter, decide_eq_true_eq]
    tauto

theorem mem_constant_cols (summary : DatasetSummary) (name : String) :
    name ∈ constant_cols summary ↔
      ∃ c ∈ summary.columns, c.name = name ∧ c.unique = 1 ∧ 0 < c.non_null := by
  unfold constant_cols
  simp only [List.mem_map, List.mem_filter, Bool.and_eq_true, beq_iff_eq,
    decide_eq_true_eq]
  tauto

theorem mem_high_card_cols (summary : DatasetSummary) (name : String) :
    name ∈ high_card_cols summary ↔
      ∃ c ∈ summary.columns, c.name = name ∧ c.is_numeric = false ∧
        50 < c.unique ∧ 0 < c.non_null := by
  unfold high_card_cols
  simp only [List.mem_map, List.mem_filter, Bool.and_eq_true,
    Bool.not_eq_true', decide_eq_true_eq]
  tauto

theorem mem_low_var_cols (summary : DatasetSummary) (name : String) :
    name ∈ low_var_cols summary ↔
      ∃ c ∈ summary.columns, c.name = name ∧ c.is_numeric = true ∧
        (∃ v, c.var = some v ∧ v < low_var_sq) ∧ 1 < c.non_null := by
  unfold low_var_cols
  simp only [List.mem_map, List.mem_filter, Bool.and_eq_true,
    varBelow_true_iff, decide_eq_true_eq]
  tauto

/-- C10: in `summary.json`, `problematic_columns` is the ascending sorted
union of the four criteria — missing share at least the threshold, constant
columns, non-numeric high-cardinality columns, and numeric low-variation
columns — and the nested `flags` object holds every quality-flags entry
except `quality_score` and `max_missing_share`. -/
theorem summary_json_spec (summary : DatasetSummary) (missing : List MissingRow)
    (ms : ℚ) (qf : QualityFlags) :
    (∀ name : String,
      name ∈ problematic_columns summary missing ms ↔
        ((∃ r ∈ missing, r.name = name ∧ ms ≤ r.missing_share) ∨
         (∃ c ∈ summary.columns, c.name = name ∧ c.unique = 1 ∧ 0 < c.non_null) ∨
         (∃ c ∈ summary.columns, c.name = name ∧ c.is_numeric = false ∧
           50 < c.unique ∧ 0 < c.non_null) ∨
         (∃ c ∈ summary.columns, c.name = name ∧ c.is_numeric = true ∧
           (∃ v, c.var = some v ∧ v < low_var_sq) ∧ 1 < c.non_null))) ∧
    List.Sorted (· ≤ ·) (problematic_columns summary missing ms) ∧
    (json_flags qf).map Prod.fst =
      ["too_few_rows", "too_many_columns", "too_many_missing",
       "has_constant_columns", "has_high_cardinality_categoricals",
       "has_numeric_columns_with_low_variation"] ∧
    (summary_json summary qf (problematic_columns summary missing ms)).map
      Prod.fst =
      ["n_rows", "n_cols", "quality_score", "problematic_columns", "flags"] ∧
    (summary_json summary qf (problematic_columns summary missing ms)).lookup
      "flags" = some (.obj (json_flags qf)) := by
  refine ⟨?_, ?_, rfl, rfl, rfl⟩
  · intro name
    unfold problematic_columns
    rw [List.mem_insertionSort, List.mem_dedup, List.mem_append,
      List.mem_append, List.mem_append, mem_problematic_missing_cols,
      mem_constant_cols, mem_high_card_cols, mem_low_var_cols, or_assoc,
      or_assoc]
  · exact List.sorted_insertionSort _ _

/-- A successfully loaded dataset with a single categorical column. -/
def one_cat_df : Dataset := ⟨[.categorical "city" [some "A"]]⟩

/-- Counterexample to C3: for the successfully loaded dataset with the single
text column `city = ["A"]` (no numeric columns), the `report` command does
not write `correlation.csv`, so the claim that every successfully loaded CSV
gets all the listed files is false. -/
theorem report_files_counterexample :
    "correlation.csv" ∉ report_files one_cat_df true := by
  have hcorr : correlation_matrix one_cat_df = [] := by
    simp [correlation_matrix, numericCols, one_cat_df]
  have hmiss : (missing_table one_cat_df).isEmpty = false := by decide
  unfold report_files
  rw [hcorr, hmiss]
  simp

/-- C3 (amended): for every successfully loaded dataset the `report` command
writes `summary.csv`, the `top_categories/` folder, image files and
`report.md`; it writes `missing.csv` exactly when the missing table is
non-empty and `correlation.csv` exactly when the correlation matrix is
non-empty (at least 2 numeric columns); `summary.json` is written exactly
when `--json-summary` is given and carries exactly the keys n_rows, n_cols,
quality_score, problematic_columns, flags. -/
theorem report_files_spec (ds : Dataset) (js : Bool)
    (summary : DatasetSummary) (qf : QualityFlags) (probs : List String) :
    "summary.csv" ∈ report_files ds js ∧
    "top_categories/" ∈ report_files ds js ∧
    "report.md" ∈ report_files ds js ∧
    "missing_matrix.png" ∈ report_files ds js ∧
    "correlation_heatmap.png" ∈ report_files ds js ∧
    ("missing.csv" ∈ report_files ds js ↔ missing_table ds ≠ []) ∧
    ("correlation.csv" ∈ report_files ds js ↔ correlation_matrix ds ≠ []) ∧
    ("summary.json" ∈ report_files ds js ↔ js = true) ∧
    (summary_json summary qf probs).map Prod.fst =
      ["n_rows", "n_cols", "quality_score", "problematic_columns", "flags"] := by
  rw [← list_isEmpty_false_iff, ← list_isEmpty_false_iff]
  unfold report_files
  cases hm : (missing_table ds).isEmpty <;>
    cases hc : (correlation_matrix ds).isEmpty <;> cases js <;>
      simp [summary_json]

/-- The ranked count entries of a column are sorted under `catRel`. -/
theorem sorted_counts_sorted (vals : List String) :
    List.Sorted catRel (sorted_counts vals) :=
  List.sorted_insertionSort catRel _

/-- The first-seen indices in the ranked count entries are pairwise
distinct. -/
theorem sorted_counts_pairwise_ne (vals : List String) :
    (sorted_counts vals).Pairwise fun a b => a.1 ≠ b.1 := by
  have hperm : List.Perm (sorted_counts vals) (countsOf vals).enum :=
    List.perm_insertionSort catRel _
  have hnd : ((sorted_counts vals).map Prod.fst).Nodup :=
    ((hperm.map Prod.fst).nodup_iff).mpr (List.nodup_enum_map_fst _)
  exact List.pairwise_map.mp hnd

/-- C6: for every dataset and positive `top_k`, each table returned by
`top_categories` has at most `top_k` rows sorted by descending frequency,
and in the ranked entries equal frequencies keep first-seen order (the
smaller first-seen index comes first). -/
theorem top_categories_sorted_spec (ds : Dataset) (mc : Option ℕ) (k : ℕ)
    (hk : 0 < k) :
    (∀ p ∈ top_categories ds mc k,
      p.2.length ≤ k ∧
        p.2.Pairwise fun a b : String × ℕ => b.2 ≤ a.2) ∧
    (∀ vals : List String,
      ((sorted_counts vals).take k).Pairwise
        fun a b => a.2.2 = b.2.2 → a.1 < b.1) := by
  have hk' := hk
  constructor
  · intro p hp
    unfold top_categories at hp
    rw [List.mem_map] at hp
    obtain ⟨q, _, hq⟩ := hp
    have hp2 : p.2 = top_categories_col q.2 k := by rw [← hq]
    rw [hp2]
    constructor
    · unfold top_categories_col
      rw [List.length_map]
      exact List.length_take_le _ _
    · unfold top_categories_col
      rw [List.pairwise_map]
      have hs : ((sorted_counts q.2).take k).Pairwise catRel :=
        (sorted_counts_sorted q.2).sublist (List.take_sublist _ _)
      exact hs.imp fun hab => by
        rcases hab with h | ⟨h, _⟩
        · omega
        · omega
  · intro vals
    have hs : ((sorted_counts vals).take k).Pairwise catRel :=
      (sorted_counts_sorted vals).sublist (List.take_sublist _ _)
    have hne : ((sorted_counts vals).take k).Pairwise fun a b => a.1 ≠ b.1 :=
      (sorted_counts_pairwise_ne vals).sublist (List.take_sublist _ _)
    exact (hs.and hne).imp fun hab heq => by
      rcases hab with ⟨h | ⟨_, hle⟩, hne'⟩
      · omega
      · omega

/-- Witness for C6: the sample dataset with `top_k = 2` satisfies the
sortedness properties. -/
theorem top_categories_sorted_spec_witness :
    (∀ p ∈ top_categories sample_df (some 5) 2,
      p.2.length ≤ 2 ∧
        p.2.Pairwise fun a b : String × ℕ => b.2 ≤ a.2) ∧
    (∀ vals : List String,
      ((sorted_counts vals).take 2).Pairwise
        fun a b => a.2.2 = b.2.2 → a.1 < b.1) :=
  top_categories_sorted_spec sample_df (some 5) 2 (by decide)

/-! ### Correlation lemmas -/

theorem pairRows_swap (xs ys : List (Option ℚ)) :
    pairRows ys xs = (pairRows xs ys).map Prod.swap := by
  unfold pairRows
  rw [← List.zip_swap xs ys, List.filterMap_map, List.map_filterMap]
  congr 1
  funext p
  rcases p with ⟨a, b⟩
  cases a <;> cases b <;> rfl

theorem meanFst_map_swap (l : List (ℚ × ℚ)) :
    meanFst (l.map Prod.swap) = meanSnd l := by
  unfold meanFst meanSnd
  rw [List.map_map, List.length_map]
  rfl

theorem meanSnd_map_swap (l : List (ℚ × ℚ)) :
    meanSnd (l.map Prod.swap) = meanFst l := by
  unfold meanFst meanSnd
  rw [List.map_map, List.length_map]
  rfl

theorem sxx_map_swap (l : List (ℚ × ℚ)) : sxx (l.map Prod.swap) = syy l := by
  unfold sxx syy
  rw [meanFst_map_swap, List.map_map]
  apply congrArg List.sum
  apply List.map_congr_left
  intro p _
  simp only [Function.comp_apply, Prod.fst_swap]

theorem syy_map_swap (l : List (ℚ × ℚ)) : syy (l.map Prod.swap) = sxx l := by
  unfold sxx syy
  rw [meanSnd_map_swap, List.map_map]
  apply congrArg List.sum
  apply List.map_congr_left
  intro p _
  simp only [Function.comp_apply, Prod.snd_swap]

theorem sxy_map_swap (l : List (ℚ × ℚ)) : sxy (l.map Prod.swap) = sxy l := by
  unfold sxy
  rw [meanFst_map_swap, meanSnd_map_swap, List.map_map]
  apply congrArg List.sum
  apply List.map_congr_left
  intro p _
  simp only [Function.comp_apply, Prod.fst_swap, Prod.snd_swap]
  ring

theorem pearsonPairs_map_swap (l : List (ℚ × ℚ)) :
    pearsonPairs (l.map Prod.swap) = pearsonPairs l := by
  unfold pearsonPairs
  rw [List.length_map, sxx_map_swap, syy_map_swap, sxy_map_swap]
  by_cases h0 : l.length = 0
  · rw [if_pos h0, if_pos h0]
  · rw [if_neg h0, if_neg h0]
    by_cases hz : sxx l = 0 ∨ syy l = 0
    · rw [if_pos (Or.symm hz), if_pos hz]
    · rw [if_neg (fun hc => hz (Or.symm hc)), if_neg hz, mul_comm (syy l) (sxx l)]

theorem pearsonCols_symm (xs ys : List (Option ℚ)) :
    pearsonCols ys xs = pearsonCols xs ys := by
  unfold pearsonCols
  rw [pairRows_swap, pearsonPairs_map_swap]

theorem pairRows_self (xs : List (Option ℚ)) :
    pairRows xs xs = (xs.filterMap id).map fun x => (x, x) := by
  induction xs with
  | nil => rfl
  | cons a t ih =>
    unfold pairRows at ih ⊢
    cases a <;> simp [List.zip_cons_cons, List.filterMap_cons, ih]

theorem sxx_nonneg (l : List (ℚ × ℚ)) : 0 ≤ sxx l := by
  unfold sxx
  apply List.sum_nonneg
  intro x hx
  rw [List.mem_map] at hx
  obtain ⟨p, _, rfl⟩ := hx
  positivity

theorem pearsonCols_diag (xs : List (Option ℚ))
    (h : sxx (pairRows xs xs) ≠ 0) : pearsonCols xs xs = some 1 := by
  unfold pearsonCols
  set l := pairRows xs xs with hl
  have hself : ∀ p ∈ l, p.1 = p.2 := by
    rw [hl, pairRows_self]
    intro p hp
    rw [List.mem_map] at hp
    obtain ⟨x, _, rfl⟩ := hp
    rfl
  have hmean : meanSnd l = meanFst l := by
    unfold meanFst meanSnd
    have hmaps : l.map Prod.snd = l.map Prod.fst :=
      List.map_congr_left fun p hp => (hself p hp).symm
    rw [hmaps]
  have hsyy : syy l = sxx l := by
    unfold syy sxx
    rw [hmean]
    apply congrArg List.sum
    apply List.map_congr_left
    intro p hp
    rw [hself p hp]
  have hsxy : sxy l = sxx l := by
    unfold sxy sxx
    rw [hmean]
    apply congrArg List.sum
    apply List.map_congr_left
    intro p hp
    rw [hself p hp]
    ring
  have hlen : ¬l.length = 0 := by
    intro hz
    apply h
    rw [List.length_eq_zero.mp hz]
    simp [sxx, meanFst]
  unfold pearsonPairs
  rw [if_neg hlen, if_neg (by push_neg; exact ⟨h, by rw [hsyy]; exact h⟩),
    hsxy, hsyy]
  congr 1
  have hcast : ((sxx l * sxx l : ℚ) : ℝ) = (sxx l : ℝ) * (sxx l : ℝ) := by
    push_cast
    ring
  rw [hcast, Real.sqrt_mul_self (by exact_mod_cast sxx_nonneg l)]
  apply div_self
  exact_mod_cast h

theorem corr_entry_eq (nc : List (List (Option ℚ))) (i j : ℕ) :
    matrixEntry (nc.map fun a => nc.map fun b => pearsonCols a b) i j =
      (match nc[i]?, nc[j]? with
       | some a, some b => pearsonCols a b
       | _, _ => none) := by
  unfold matrixEntry
  simp only [List.getD_eq_getElem?_getD, List.getElem?_map]
  cases hi : nc[i]? with
  | none => simp
  | some a =>
    simp only [Option.map_some', Option.getD_some, List.getElem?_map]
    cases hj : nc[j]? with
    | none => simp
    | some b => simp

/-- A dataset with two numeric columns, the first one constant. -/
def const_num_df : Dataset :=
  ⟨[.numeric "a" [some 1, some 1], .numeric "b" [some 0, some 1]]⟩

/-- Counterexample to C7: `const_num_df` has 2 numeric columns, yet the
diagonal entry of its correlation matrix for the constant column `a` is not
1.0 — the Pearson coefficient is undefined (pandas `NaN`) because the
variance is zero. -/
theorem correlation_diag_counterexample :
    2 ≤ (numericCols const_num_df).length ∧
    matrixEntry (correlation_matrix const_num_df) 0 0 ≠ some 1 := by
  refine ⟨by decide, ?_⟩
  have hnc : numericCols const_num_df =
      [[some 1, some 1], [some 0, some 1]] := by decide
  have hent : matrixEntry (correlation_matrix const_num_df) 0 0 = none := by
    unfold correlation_matrix
    rw [hnc, if_neg (by norm_num), corr_entry_eq]
    simp only [List.getElem?_cons_zero]
    unfold pearsonCols
    have hpr : pairRows [some 1, some 1] [some (1 : ℚ), some 1] =
        [(1, 1), (1, 1)] := by decide
    rw [hpr]
    unfold pearsonPairs
    rw [if_neg (by norm_num), if_pos (Or.inl (by norm_num [sxx, meanFst]))]
  rw [hent]
  simp

/-- C7 (amended): the correlation matrix is empty exactly when there are
fewer than 2 numeric columns; it is always symmetric; and a diagonal entry is
1.0 whenever the column's pairwise-complete self-rows have nonzero squared
deviation (for a constant column the entry is undefined/NaN instead). -/
theorem correlation_matrix_spec (ds : Dataset) :
    (correlation_matrix ds = [] ↔ (numericCols ds).length < 2) ∧
    (∀ i j, matrixEntry (correlation_matrix ds) i j =
      matrixEntry (correlation_matrix ds) j i) ∧
    (∀ i a, 2 ≤ (numericCols ds).length → (numericCols ds)[i]? = some a →
      sxx (pairRows a a) ≠ 0 →
      matrixEntry (correlation_matrix ds) i i = some 1) := by
  refine ⟨?_, ?_, ?_⟩
  · unfold correlation_matrix
    by_cases h : (numericCols ds).length < 2
    · simp [h]
    · rw [if_neg h]
      simp only [h, iff_false]
      intro hnil
      rw [List.map_eq_nil_iff] at hnil
      apply h
      rw [hnil]
      simp
  · intro i j
    unfold correlation_matrix
    by_cases h : (numericCols ds).length < 2
    · rw [if_pos h]
      rfl
    · rw [if_neg h, corr_entry_eq, corr_entry_eq]
      cases hi : (numericCols ds)[i]? <;> cases hj : (numericCols ds)[j]? <;>
        first
          | rfl
          | exact pearsonCols_symm _ _
  · intro i a h2 hi hsxx
    unfold correlation_matrix
    rw [if_neg (by omega), corr_entry_eq, hi]
    exact pearsonCols_diag a hsxx

/-- Witness for C7 (amended): on the sample dataset (2 numeric columns with
non-constant values) the matrix is non-empty, symmetric at (0, 1), and the
diagonal entry of `age` is 1.0. -/
theorem correlation_matrix_spec_witness :
    (correlation_matrix sample_df = [] ↔ (numericCols sample_df).length < 2) ∧
    matrixEntry (correlation_matrix sample_df) 0 1 =
      matrixEntry (correlation_matrix sample_df) 1 0 ∧
    matrixEntry (correlation_matrix sample_df) 0 0 = some 1 :=
  ⟨(correlation_matrix_spec sample_df).1,
   (correlation_matrix_spec sample_df).2.1 0 1,
   (correlation_matrix_spec sample_df).2.2 0 [some 10, some 20, some 30, none]
     (by decide) (by decide)
     (by
       have hp : pairRows [some (10 : ℚ), some 20, some 30, none]
           [some 10, some 20, some 30, none] =
           [(10, 10), (20, 20), (30, 30)] := by decide
       rw [hp]
       norm_num [sxx, meanFst])⟩

end EdaCli
